import Mathlib

/-!
Shallow embedding of the device agent's connection-lifecycle and
hot-configuration subsystem:
  - src/cybergrid/config/__init__.py  (ConfigManager, _merge_dataclass,
    _reload_config, _notify_changes, _watch_loop, on_change)
  - src/cybergrid/mqtt/client.py      (MQTTClientWrapper: _connect_with_retry,
    _connect, disconnect, reconnect, publish, publish_status)

Python's dynamic values are modelled by `PyVal`; config records (dataclass
instances) by `PyObj`, carrying both the instance `__dict__` and the
class-level attributes reachable through `hasattr`/`getattr`.  Stateful
methods become explicit state-passing functions.  Exceptions become
explicit `PyErr` outcomes; an exception that Python swallows is dropped at
the same point the source's `try/except` drops it.
-/

namespace DeviceAgent

/-- A Python value as it can appear in a parsed YAML document or in a
config-record attribute.  `vmethod` stands for a bound method object
(dataclass-generated `__init__`/`__eq__`/`__repr__`); Python `!=` between a
method and any plain value is `True`, which `beq` reflects by returning
`false` across constructors. -/
inductive PyVal where
  | vnone
  | vbool (b : Bool)
  | vint (n : Int)
  | vstr (s : String)
  | vmethod (m : String)
  | vlist (xs : List PyVal)
  | vmap (kvs : List (String × PyVal))
  deriving Repr

mutual
/-- Structural equality on `PyVal`, modelling Python `==`/`!=` on the data
values the agent handles.  (Python's numeric cross-type equality such as
`True == 1` is not modelled; no settings field mixes bool and int.) -/
def PyVal.beq : PyVal → PyVal → Bool
  | .vnone, .vnone => true
  | .vbool a, .vbool b => a == b
  | .vint a, .vint b => a == b
  | .vstr a, .vstr b => a == b
  | .vmethod a, .vmethod b => a == b
  | .vlist as, .vlist bs => PyVal.beqList as bs
  | .vmap as, .vmap bs => PyVal.beqKvs as bs
  | _, _ => false
def PyVal.beqList : List PyVal → List PyVal → Bool
  | [], [] => true
  | a :: as, b :: bs => PyVal.beq a b && PyVal.beqList as bs
  | _, _ => false
def PyVal.beqKvs : List (String × PyVal) → List (String × PyVal) → Bool
  | [], [] => true
  | (k1, v1) :: as, (k2, v2) :: bs => k1 == k2 && PyVal.beq v1 v2 && PyVal.beqKvs as bs
  | _, _ => false
end

/-- Python truthiness: `yaml.safe_load(f) or {}` replaces a falsy parse
result with the empty dict. -/
def PyVal.isFalsy : PyVal → Bool
  | .vnone => true
  | .vbool b => !b
  | .vint n => n == 0
  | .vstr s => s.isEmpty
  | .vlist xs => xs.isEmpty
  | .vmap kvs => kvs.isEmpty
  | .vmethod _ => false

/-- Exceptions the embedded code can raise.  `attributeError` models
`AttributeError` (e.g. `.items()` on a non-dict), `typeError` models
`TypeError` (e.g. `"mqtt" in 5` or `data["mqtt"]` on a list/str),
`keyError` models `KeyError`, `mqttError` models `aiomqtt.MqttError`
raised by the transport. -/
inductive PyErr where
  | attributeError
  | typeError
  | keyError
  | mqttError
  deriving Repr, DecidableEq

/-- Python `key in data`: dict membership for dicts, element membership for
lists, substring test for strings, `TypeError` for non-iterables. -/
def pyIn (key : String) : PyVal → Except PyErr Bool
  | .vmap kvs => .ok (kvs.any (fun kv => kv.1 == key))
  | .vlist xs => .ok (xs.any (fun x => PyVal.beq x (.vstr key)))
  | .vstr s => .ok (2 ≤ (s.splitOn key).length)
  | _ => .error .typeError

/-- Python `data[key]` with a string key: dict lookup; `TypeError` on
lists/strings (string indices must be integers) and on scalars. -/
def pyGet (key : String) : PyVal → Except PyErr PyVal
  | .vmap kvs =>
      match kvs.lookup key with
      | some v => .ok v
      | none => .error .keyError
  | _ => .error .typeError

/-- Insertion-ordered association-list update: replace the value of an
existing key in place, else append (Python dict assignment order). -/
def setIn (l : List (String × PyVal)) (k : String) (v : PyVal) :
    List (String × PyVal) :=
  if l.any (fun p => p.1 == k) then
    l.map (fun p => if p.1 == k then (k, v) else p)
  else l ++ [(k, v)]

/-- A Python object as seen by `hasattr`/`getattr`/`setattr`: the instance
`__dict__` (dataclass field values, plus any attribute later shadowed by
`setattr`) and the class-level attributes (docstring and generated
methods), looked up when the instance dict misses. -/
structure PyObj where
  fields : List (String × PyVal)
  classAttrs : List (String × PyVal)
  deriving Repr

/-- Attribute lookup: instance dict first, then the class (Python MRO). -/
def PyObj.lookupAttr (o : PyObj) (k : String) : Option PyVal :=
  match o.fields.lookup k with
  | some v => some v
  | none => o.classAttrs.lookup k

/-- `setattr(instance, key, value)`: writes the instance dict (shadowing a
class attribute of the same name). -/
def PyObj.setattr (o : PyObj) (k : String) (v : PyVal) : PyObj :=
  { o with fields := setIn o.fields k v }

/-- A Change Record: the dict `key: (old, new)` as an insertion-ordered
list of (key, old, new). -/
abbrev Changes := List (String × PyVal × PyVal)

/-- Change-record entry assignment with dict semantics. -/
def setChange (cs : Changes) (k : String) (old new : PyVal) : Changes :=
  if cs.any (fun c => c.1 == k) then
    cs.map (fun c => if c.1 == k then (k, old, new) else c)
  else cs ++ [(k, old, new)]

/-- `changes.update(other)`: right-biased dict update. -/
def updateChanges (a b : Changes) : Changes :=
  b.foldl (fun acc c => setChange acc c.1 c.2.1 c.2.2) a

/-- `_merge_dataclass(instance, data)`: for each `(key, value)` of `data`
in iteration order, if `hasattr(instance, key)` and the current attribute
value differs from `value`, record the change and `setattr` the new value;
keys failing `hasattr` are skipped.  Returns the mutated instance and the
`changed` dict. -/
def merge_dataclass (obj : PyObj) (data : List (String × PyVal)) :
    PyObj × Changes :=
  data.foldl
    (fun acc kv =>
      match acc.1.lookupAttr kv.1 with
      | none => acc
      | some old =>
          if PyVal.beq old kv.2 then acc
          else (acc.1.setattr kv.1 kv.2, setChange acc.2 kv.1 old kv.2))
    (obj, ([] : Changes))

/-- `data.items()` inside `_merge_dataclass`: a non-dict argument raises
`AttributeError` before any mutation. -/
def mergeSection (obj : PyObj) (v : PyVal) : Except PyErr (PyObj × Changes) :=
  match v with
  | .vmap kvs => .ok (merge_dataclass obj kvs)
  | _ => .error .attributeError

/-- The `MqttConfig` dataclass instance with its source defaults
(`host = "localhost"`, `port = 1883`) and the class attributes Python puts
on the class: the docstring from the source and the
dataclass-generated methods. -/
def mqttConfigInit : PyObj :=
  { fields := [("host", .vstr "localhost"), ("port", .vint 1883)]
  , classAttrs :=
      [("__doc__", .vstr "MQTT broker connection configuration.")
      , ("__init__", .vmethod "__init__")
      , ("__repr__", .vmethod "__repr__")
      , ("__eq__", .vmethod "__eq__")] }

/-- The `AppConfig` dataclass instance with its source defaults
(`poll_interval = 5`, `heartbeat_interval = 30`) and class attributes. -/
def appConfigInit : PyObj :=
  { fields := [("poll_interval", .vint 5), ("heartbeat_interval", .vint 30)]
  , classAttrs :=
      [("__doc__", .vstr "Application settings from config.yaml.")
      , ("__init__", .vmethod "__init__")
      , ("__repr__", .vmethod "__repr__")
      , ("__eq__", .vmethod "__eq__")] }

/-- The mutable runtime-settings part of `ConfigManager`: `self.mqtt` and
`self.app`. -/
structure ConfigState where
  mqtt : PyObj
  app : PyObj

/-- `ConfigManager` state right after `__init__`. -/
def configInit : ConfigState := ⟨mqttConfigInit, appConfigInit⟩

/-- What the settings source yielded this reload: `parseFail` when
`open(...)`/`yaml.safe_load` raised `IOError`/`yaml.YAMLError` (the two
exception types `_reload_config` catches), `parsed v` when the YAML parse
produced the value `v`. -/
inductive ReloadSrc where
  | parseFail
  | parsed (v : PyVal)

/-- How `_reload_config` finished: returned a Change Record, or let an
uncaught exception (e.g. `AttributeError`/`TypeError` from a wrongly
shaped document) escape to the caller. -/
inductive ReloadOutcome where
  | ok (changes : Changes)
  | raised (e : PyErr)

/-- `ConfigManager._reload_config`: parse failure of the two caught kinds
returns `{}` with the state untouched; otherwise `data = parsed or {}`
(Python `or` replaces a falsy parse result), then the `mqtt` section is
merged into `self.mqtt` and the `app` section into `self.app`, with
`changes.update` combining the two dicts.  In-place mutations made before
an uncaught exception persist; the exception escapes. -/
def reload_config (src : ReloadSrc) (st : ConfigState) :
    ConfigState × ReloadOutcome :=
  match src with
  | .parseFail => (st, .ok [])
  | .parsed v =>
    let data := if v.isFalsy then .vmap [] else v
    match pyIn "mqtt" data with
    | .error e => (st, .raised e)
    | .ok hasMqtt =>
      let step1 : ConfigState × Except PyErr Changes :=
        if hasMqtt then
          match pyGet "mqtt" data with
          | .error e => (st, .error e)
          | .ok sec =>
            match mergeSection st.mqtt sec with
            | .error e => (st, .error e)
            | .ok r => ({ st with mqtt := r.1 }, .ok r.2)
        else (st, .ok [])
      match step1 with
      | (st1, .error e) => (st1, .raised e)
      | (st1, .ok cs1) =>
        match pyIn "app" data with
        | .error e => (st1, .raised e)
        | .ok hasApp =>
          if hasApp then
            match pyGet "app" data with
            | .error e => (st1, .raised e)
            | .ok sec =>
              match mergeSection st1.app sec with
              | .error e => (st1, .raised e)
              | .ok r => ({ st1 with app := r.1 }, .ok (updateChanges cs1 r.2))
          else (st1, .ok cs1)

/-- A registered change listener, identified by registration index; its
only behaviour visible to the notification code is whether the call
raises.  `ConfigManager.on_change` appends to `self._watchers`, so the
watcher list is in registration order. -/
structure Listener where
  id : Nat
  raises : Bool
  deriving Repr, DecidableEq

/-- The `for cb in self._watchers: cb(changes)` loop of `_notify_changes`:
returns the invocations actually performed (listener id, record passed)
and whether an exception escaped the loop. -/
def runListeners : List Listener → Changes → List (Nat × Changes) × Bool
  | [], _ => ([], false)
  | l :: rest, ch =>
    if l.raises then ([(l.id, ch)], true)
    else
      let r := runListeners rest ch
      ((l.id, ch) :: r.1, r.2)

/-- `ConfigManager._notify_changes`: an empty record only logs and
returns without touching any watcher; a non-empty record is handed to the
watchers in order. -/
def notify_changes (watchers : List Listener) (changes : Changes) :
    List (Nat × Changes) × Bool :=
  if changes.isEmpty then ([], false) else runListeners watchers changes

/-- Result of one change-detected iteration of `_watch_loop`. -/
structure TickResult where
  state : ConfigState
  invoked : List (Nat × Changes)
  loopContinues : Bool

/-- One iteration of `ConfigManager._watch_loop` in which the source
mtime advanced: `changes = self._reload_config()` then
`self._notify_changes(changes)`, the whole body inside
`try ... except Exception: pass`, after which the loop sleeps and
continues.  An exception from `_reload_config` or from a listener is
swallowed there, so the loop always continues. -/
def watchTick (watchers : List Listener) (src : ReloadSrc)
    (st : ConfigState) : TickResult :=
  match reload_config src st with
  | (st1, .raised _) => ⟨st1, [], true⟩
  | (st1, .ok changes) => ⟨st1, (notify_changes watchers changes).1, true⟩

/-- The `aiomqtt.Client` handle held in `self._client`: whether the
session context is entered and not yet exited (`live`), and the messages
the session actually accepted from `publish`
(topic, payload, qos, retain). -/
structure Session where
  live : Bool
  received : List (String × String × Nat × Bool)
  deriving Repr, DecidableEq

/-- The mutable state of `MQTTClientWrapper`: `self._connected`,
`self._reconnect_requested`, `self._running`, `self._client`. -/
structure MqttState where
  connected : Bool
  reconnectRequested : Bool
  running : Bool
  client : Option Session
  deriving Repr, DecidableEq

/-- The status topic `device/{device_id}/status`. -/
def statusTopic (deviceId : String) : String :=
  "device/" ++ deviceId ++ "/status"

/-- `json.dumps` of the status dict, as the source builds it. -/
def statusPayload (status : String) : String :=
  "\x7b\"status\": \"" ++ status ++ "\"\x7d"

/-- `MQTTClientWrapper.publish(topic, payload, qos, retain)`: a silent
no-op when `not self._connected or not self._client`; otherwise forwards
to the session, whose protocol-level failure (`pubFails`) raises
`MqttError` out of `publish` — the source has no `try` here. -/
def publish (st : MqttState) (topic payload : String) (qos : Nat)
    (retain : Bool) (pubFails : Bool) : MqttState × Except PyErr Unit :=
  if !st.connected || st.client.isNone then (st, .ok ())
  else
    match st.client with
    | none => (st, .ok ())
    | some c =>
      if pubFails then (st, .error .mqttError)
      else
        let c2 : Session :=
          { c with received := c.received ++ [(topic, payload, qos, retain)] }
        ({ st with client := some c2 }, .ok ())

/-- `MQTTClientWrapper.publish_status(status)`: `publish` of the status
JSON to the status topic at qos 1, retained. -/
def publish_status (st : MqttState) (deviceId status : String)
    (pubFails : Bool) : MqttState × Except PyErr Unit :=
  publish st (statusTopic deviceId) (statusPayload status) 1 true pubFails

/-- `await self._client.__aexit__(None, None, None)` with its enclosing
`try/except Exception: pass`: the session ends up not live either way. -/
def releaseClient : Option Session → Option Session
  | none => none
  | some c => some { c with live := false }

/-- `MQTTClientWrapper.disconnect`: first sets `self._running = False` and
`self._connected = False`, then, if a client is held, attempts
`publish_status("offline")` (exception swallowed) and exits the session
context (exception swallowed).  Because `_connected` is already `False`,
the inner `publish` hits its not-connected guard. -/
def disconnect (st : MqttState) (deviceId : String) (pubFails : Bool) :
    MqttState :=
  let st1 := { st with running := false, connected := false }
  match st1.client with
  | none => st1
  | some _ =>
    let st2 := (publish_status st1 deviceId "offline" pubFails).1
    { st2 with client := releaseClient st2.client }

/-- `MQTTClientWrapper.reconnect`: if a client is held, attempts
`publish_status("offline")` (exception swallowed; here `_connected` still
has its old value) and exits the session context (exception swallowed);
then sets `self._connected = False` and
`self._reconnect_requested = True`. -/
def reconnect (st : MqttState) (deviceId : String) (pubFails : Bool) :
    MqttState :=
  let st1 :=
    match st.client with
    | none => st
    | some _ =>
      let st2 := (publish_status st deviceId "offline" pubFails).1
      { st2 with client := releaseClient st2.client }
  { st1 with connected := false, reconnectRequested := true }

/-- A successful `MQTTClientWrapper._connect`: builds a fresh client (with
the offline last-will registered), enters its context, sets
`self._connected = True`, then `publish_status("online")` on the new live
session. -/
def connectSuccess (st : MqttState) (deviceId : String) : MqttState :=
  let stc := { st with client := some { live := true, received := [] }
                     , connected := true }
  (publish_status stc deviceId "online" false).1

/-- A failing `_connect` attempt: `self._client = Client(...)` has already
replaced the handle with a fresh, never-entered client when
`__aenter__` raises `OSError`/`MqttError`; the flags are untouched. -/
def connectFailure (st : MqttState) : MqttState :=
  { st with client := some { live := false, received := [] } }

/-- `MQTTClientWrapper._connect_with_retry` from a given current backoff:
loops `while not self._connected and not self._reconnect_requested and
self._running`; each iteration attempts `_connect` (its outcome scheduled
by `outcomes`), returning `True` on success, and on failure sleeps the
current backoff then doubles it capped at 60.  Returns the final state,
the list of backoff delays slept, and the boolean result (`false` also
when the outcome schedule is exhausted with the loop still retrying). -/
def retryLoop (deviceId : String) : Nat → MqttState → List Bool →
    MqttState × List Nat × Bool
  | _, st, [] =>
    if st.connected || st.reconnectRequested || !st.running then (st, [], false)
    else (st, [], false)
  | backoff, st, o :: rest =>
    if st.connected || st.reconnectRequested || !st.running then (st, [], false)
    else if o then (connectSuccess st deviceId, [], true)
    else
      let r := retryLoop deviceId (min (backoff * 2) 60) (connectFailure st) rest
      (r.1, backoff :: r.2.1, r.2.2)

/-- `_connect_with_retry` proper: `backoff` starts at 5 on every call (it
is a local of the method, so every retry sequence starts over at 5). -/
def connect_with_retry (deviceId : String) (st : MqttState)
    (outcomes : List Bool) : MqttState × List Nat × Bool :=
  retryLoop deviceId 5 st outcomes

/-- The session's received-message log, `[]` when no client is held. -/
def sessionReceived (st : MqttState) : List (String × String × Nat × Bool) :=
  match st.client with
  | none => []
  | some c => c.received

/-- Whether the held session is entered and not exited. -/
def sessionLive (st : MqttState) : Bool :=
  match st.client with
  | none => false
  | some c => c.live

/-- One doubling step of the capped backoff recurrence commutes with the
closed form: doubling-then-capping composed with the formula at exponent
`i` is the formula at exponent `i + 1`. -/
lemma backoff_step (b i : Nat) :
    min (min (b * 2) 60 * 2 ^ i) 60 = min (b * 2 ^ (i + 1)) 60 := by
  rcases Nat.le_total (b * 2) 60 with h | h
  · rw [Nat.min_eq_left h]
    congr 1
    ring
  · have hp : 0 < 2 ^ i := pow_pos (by norm_num) i
    have h1 : 60 ≤ min (b * 2) 60 * 2 ^ i := by
      rw [Nat.min_eq_right h]
      exact Nat.le_mul_of_pos_right 60 hp
    have h2 : 60 ≤ b * 2 ^ (i + 1) := by
      have : b * 2 ≤ b * 2 ^ (i + 1) := by
        have h21 : (2 : Nat) ^ 1 ≤ 2 ^ (i + 1) :=
          Nat.pow_le_pow_right (by norm_num) (by omega)
        calc b * 2 = b * 2 ^ 1 := by ring
        _ ≤ b * 2 ^ (i + 1) := Nat.mul_le_mul_left b h21
      omega
    rw [Nat.min_eq_right h1, Nat.min_eq_right h2]

/-- Delays slept by the retry loop started at backoff `b ≤ 60` when the
first `n` connection attempts fail and the next succeeds. -/
lemma retryLoop_replicate_delays (deviceId : String) (n : Nat) :
    ∀ (b : Nat), b ≤ 60 → ∀ st : MqttState, st.connected = false →
      st.reconnectRequested = false → st.running = true →
      (retryLoop deviceId b st (List.replicate n false ++ [true])).2.1
        = (List.range n).map (fun i => min (b * 2 ^ i) 60) := by
  induction n with
  | zero =>
    intro b _ st hc hr hrun
    simp [retryLoop, hc, hr, hrun]
  | succ n ih =>
    intro b hb st hc hr hrun
    have hc2 : (connectFailure st).connected = false := hc
    have hr2 : (connectFailure st).reconnectRequested = false := hr
    have hrun2 : (connectFailure st).running = true := hrun
    have ihs := ih (min (b * 2) 60) (Nat.min_le_right _ _)
      (connectFailure st) hc2 hr2 hrun2
    rw [List.replicate_succ, List.cons_append]
    simp only [retryLoop, hc, hr, hrun, Bool.false_or, Bool.not_true,
      Bool.or_false, Bool.false_eq_true, ite_false, if_false]
    rw [ihs, List.range_succ_eq_map]
    simp only [List.map_cons, List.map_map, pow_zero, Nat.mul_one,
      Function.comp]
    rw [Nat.min_eq_left hb]
    exact congrArg (List.cons b)
      (congrArg (fun g => List.map g (List.range n))
        (funext fun i => by simpa using backoff_step b i))

/-- C1: in any one call of the retry loop (any state with the loop able to
run: not connected, no reconnect request, running), if the first `n ≥ 1`
connection attempts fail and the next succeeds, the delay slept before
retry `k` (1-indexed; index `k - 1` in the list) is
`min (5 * 2 ^ (k - 1)) 60`.  Since `backoff` is a local variable of
`_connect_with_retry` initialised to 5, every invocation of the loop — in
particular the next one after a successful connection — starts the backoff
again at 5, which this statement expresses by holding for every eligible
start state. -/
theorem c1_backoff_delays (deviceId : String) (n : Nat) (st : MqttState)
    (hc : st.connected = false) (hr : st.reconnectRequested = false)
    (hrun : st.running = true) :
    (connect_with_retry deviceId st (List.replicate n false ++ [true])).2.1
      = (List.range n).map (fun k => min (5 * 2 ^ k) 60) :=
  retryLoop_replicate_delays deviceId n 5 (by omega) st hc hr hrun

/-- Witness for C1: three failures then success from the initial state
sleep exactly 5, 10, 20. -/
theorem c1_backoff_delays_witness :
    (connect_with_retry "device-001" ⟨false, false, true, none⟩
        (List.replicate 3 false ++ [true])).2.1 = [5, 10, 20] ∧
      (List.range 3).map (fun k => min (5 * 2 ^ k) 60) = [5, 10, 20] :=
  ⟨(c1_backoff_delays "device-001" 3 ⟨false, false, true, none⟩
      rfl rfl rfl).trans (by decide), by decide⟩

/-- C6: `publish` while not connected is a silent no-op: it returns
without raising, forwards nothing to any session (the whole state,
including the session's received-message log, is unchanged) and the
payload is dropped. -/
theorem c6_publish_not_connected (st : MqttState) (topic payload : String)
    (qos : Nat) (retain pubFails : Bool) (h : st.connected = false) :
    publish st topic payload qos retain pubFails = (st, .ok ()) := by
  simp [publish, h]

/-- Witness for C6 at a disconnected state holding a stale session. -/
theorem c6_publish_not_connected_witness :
    publish ⟨false, false, true, some ⟨false, []⟩⟩ "t" "p" 0 false false
      = (⟨false, false, true, some ⟨false, []⟩⟩, .ok ()) :=
  c6_publish_not_connected _ "t" "p" 0 false false rfl

/-- C4 counterexample: `publish` has no `try/except`, so a protocol-level
failure raised by the session escapes `MQTTClientWrapper.publish` to the
caller, contradicting the claim that no exception escapes. -/
theorem c4_counterexample :
    (publish ⟨true, false, true, some ⟨true, []⟩⟩ "sensors" "data" 0 false
        true).2 = .error .mqttError := rfl

/-- C4 amended: a protocol-level publish failure while connected leaves
the manager's state — connected flag, reconnect flag, running flag and
session handle — exactly as it was, but the exception is not swallowed by
`publish`: it propagates to the caller (the callers in `_connect`,
`disconnect` and `reconnect` catch it; the heartbeat/measurement callers
do not). -/
theorem c4_publish_failure_amended (st : MqttState) (topic payload : String)
    (qos : Nat) (retain : Bool) (hc : st.connected = true)
    (hcl : st.client.isSome = true) :
    publish st topic payload qos retain true = (st, .error .mqttError) := by
  obtain ⟨c, h⟩ := Option.isSome_iff_exists.mp hcl
  simp [publish, hc, h]

/-- Witness for the amended C4 at a connected state with a live session. -/
theorem c4_publish_failure_amended_witness :
    publish ⟨true, false, true, some ⟨true, []⟩⟩ "sensors" "data" 0 false true
      = (⟨true, false, true, some ⟨true, []⟩⟩, .error .mqttError) :=
  c4_publish_failure_amended _ "sensors" "data" 0 false rfl rfl

/-- C7: `disconnect` is idempotent — a second call yields exactly the
state of the first — and the state it reaches is terminal: not running,
not connected, and the held session (if any) is released (not live).
`p1`/`p2` range over whether the transport would fail the offline publish,
which cannot matter because the publish is guarded out. -/
theorem c7_disconnect_idempotent (st : MqttState) (deviceId : String)
    (p1 p2 : Bool) :
    disconnect (disconnect st deviceId p1) deviceId p2
        = disconnect st deviceId p1 ∧
      (disconnect st deviceId p1).running = false ∧
      (disconnect st deviceId p1).connected = false ∧
      sessionLive (disconnect st deviceId p1) = false := by
  rcases st with ⟨c, r, run, cl⟩
  rcases cl with _ | ⟨cs⟩ <;>
    simp [disconnect, publish_status, publish, releaseClient, sessionLive]

/-- C3: evaluation at the failing input.  From a connected state with a
live session, `disconnect` sets `_connected = False` before its
`publish_status("offline")` call, so the inner `publish` hits its
not-connected guard and the offline message never reaches the session —
the session's received log stays empty even though the session is then
released.  `reconnect`, which publishes before clearing the flag, does
deliver the offline status to the same session; the claimed behaviour
therefore holds only for the reconnect path, not the
disconnect/shutdown path. -/
theorem c3_offline_publish_dropped_on_disconnect :
    sessionReceived
        (disconnect ⟨true, false, true, some ⟨true, []⟩⟩ "dev-001" false)
        = [] ∧
      sessionLive
        (disconnect ⟨true, false, true, some ⟨true, []⟩⟩ "dev-001" false)
        = false ∧
      sessionReceived
        (reconnect ⟨true, false, true, some ⟨true, []⟩⟩ "dev-001" false)
        = [(statusTopic "dev-001", statusPayload "offline", 1, true)] :=
  ⟨rfl, rfl, rfl⟩

/-- C5 counterexample: calling `reconnect` while not connected (here: a
Connecting-phase state holding the not-yet-entered client of a failed
attempt) is not a no-op.  It changes the state (sets
`_reconnect_requested`), and an in-progress retry sequence that would
succeed on its next attempt instead makes no further attempt: the retry
loop's `while` condition sees the flag and exits. -/
theorem c5_counterexample :
    reconnect ⟨false, false, true, some ⟨false, []⟩⟩ "dev-001" false
        ≠ ⟨false, false, true, some ⟨false, []⟩⟩ ∧
      (connect_with_retry "dev-001" ⟨false, false, true, some ⟨false, []⟩⟩
          [true]).2.2 = true ∧
      (connect_with_retry "dev-001"
          (reconnect ⟨false, false, true, some ⟨false, []⟩⟩ "dev-001" false)
          [true]).2.2 = false :=
  ⟨by decide, rfl, rfl⟩

/-- C5 amended: calling `reconnect` while not connected leaves the
connected flag false, leaves the running flag alone, and publishes nothing
to the session (the offline publish is guarded out), but it is not a
no-op: it sets `_reconnect_requested`, and while that flag is set the
retry loop returns immediately without making any connection attempt, so
an in-progress retry sequence is aborted; the supervising loop then clears
the flag and starts a fresh sequence (whose backoff restarts at 5). -/
theorem c5_reconnect_not_connected_amended (st : MqttState)
    (deviceId : String) (pubFails : Bool) (h : st.connected = false) :
    (reconnect st deviceId pubFails).connected = false ∧
      (reconnect st deviceId pubFails).running = st.running ∧
      sessionReceived (reconnect st deviceId pubFails) = sessionReceived st ∧
      (reconnect st deviceId pubFails).reconnectRequested = true ∧
      ∀ (backoff : Nat) (outcomes : List Bool),
        retryLoop deviceId backoff (reconnect st deviceId pubFails) outcomes
          = (reconnect st deviceId pubFails, [], false) := by
  rcases hcl : st.client with _ | ⟨cs⟩ <;>
    refine ⟨?_, ?_, ?_, ?_, ?_⟩ <;>
      first
        | (intro backoff outcomes
           rcases outcomes with _ | ⟨o, rest⟩ <;>
             simp [retryLoop, reconnect, hcl, publish_status, publish, h,
               releaseClient])
        | simp [reconnect, hcl, publish_status, publish, h, releaseClient,
            sessionReceived]

/-- Witness for the amended C5 at a Connecting-phase state. -/
theorem c5_reconnect_not_connected_amended_witness :
    (reconnect ⟨false, false, true, some ⟨false, []⟩⟩ "dev-001"
          false).connected = false ∧
      (reconnect ⟨false, false, true, some ⟨false, []⟩⟩ "dev-001"
          false).reconnectRequested = true ∧
      retryLoop "dev-001" 5
          (reconnect ⟨false, false, true, some ⟨false, []⟩⟩ "dev-001" false)
          [true]
        = (reconnect ⟨false, false, true, some ⟨false, []⟩⟩ "dev-001" false,
            [], false) := by
  have h := c5_reconnect_not_connected_amended
    ⟨false, false, true, some ⟨false, []⟩⟩ "dev-001" false rfl
  exact ⟨h.1, h.2.2.2.1, h.2.2.2.2 5 [true]⟩

/-- C2 counterexample: a source that parses as YAML (so is outside the
`yaml.YAMLError`/`IOError` catch) but whose `app` section is not a
mapping.  The `mqtt` section has already been merged in place when
`data["app"].items()` raises `AttributeError`, so reload neither returns
an empty Change Record (it raises) nor leaves the fields at their
pre-reload values: `host` has changed from `"localhost"` to `"h2"`.
Partial application from a malformed source is possible. -/
theorem c2_counterexample :
    configInit.mqtt.lookupAttr "host" = some (.vstr "localhost") ∧
      ((reload_config
          (.parsed (.vmap [("mqtt", .vmap [("host", .vstr "h2")]),
            ("app", .vstr "oops")]))
          configInit).1.mqtt.lookupAttr "host" = some (.vstr "h2")) ∧
      (reload_config
          (.parsed (.vmap [("mqtt", .vmap [("host", .vstr "h2")]),
            ("app", .vstr "oops")]))
          configInit).2 = .raised .attributeError :=
  ⟨rfl, rfl, rfl⟩

/-- C2 amended: for the malformed sources `_reload_config` actually
catches — a file read failing with `IOError` or a YAML parse failing with
`yaml.YAMLError` — reload returns an empty Change Record and leaves every
Runtime Settings field exactly at its pre-reload value.  A source that
parses as YAML but whose top level or `mqtt`/`app` section has the wrong
shape instead raises an uncaught `TypeError`/`AttributeError` out of
`_reload_config` (swallowed one level up by the watch loop), and sections
merged before the raise stay applied. -/
theorem c2_parse_failure_amended (st : ConfigState) :
    reload_config .parseFail st = (st, .ok []) := rfl

/-- Listeners that do not raise are all invoked, in list order, each with
the record. -/
lemma runListeners_ok (ws : List Listener) (ch : Changes)
    (h : ∀ l ∈ ws, l.raises = false) :
    runListeners ws ch = (ws.map (fun l => (l.id, ch)), false) := by
  induction ws with
  | nil => rfl
  | cons l rest ih =>
    have hl : l.raises = false := h l (by simp)
    have hr : ∀ x ∈ rest, x.raises = false := fun x hx => h x (by simp [hx])
    simp [runListeners, hl, ih hr]

/-- C8: for listeners that do not themselves raise (the raising case is
the subject of C9), `_notify_changes` invokes every registered listener
synchronously, in registration order (`on_change` appends to
`_watchers`), each with the full Change Record — and invokes no listener
at all when the record is empty, which is also what a caught parse
failure produces (`_reload_config` returns `{}` then). -/
theorem c8_notify_in_order (watchers : List Listener) (changes : Changes)
    (h : ∀ l ∈ watchers, l.raises = false) :
    (changes = [] → (notify_changes watchers changes).1 = []) ∧
      (changes ≠ [] →
        (notify_changes watchers changes).1
          = watchers.map (fun l => (l.id, changes))) := by
  constructor
  · intro he
    simp [notify_changes, he]
  · intro hne
    rcases changes with _ | ⟨c, cs⟩
    · exact absurd rfl hne
    · simp [notify_changes, runListeners_ok _ _ h]

/-- Witness for C8: two non-raising listeners, one non-empty record (both
invoked, in order) and the empty record (no invocation). -/
theorem c8_notify_in_order_witness :
    (notify_changes [⟨0, false⟩, ⟨1, false⟩]
        [("port", .vint 1883, .vint 1884)]).1
      = [(0, [("port", .vint 1883, .vint 1884)]),
          (1, [("port", .vint 1883, .vint 1884)])] ∧
      (notify_changes [⟨0, false⟩, ⟨1, false⟩] ([] : Changes)).1 = [] := by
  have h1 := c8_notify_in_order [⟨0, false⟩, ⟨1, false⟩]
    [("port", .vint 1883, .vint 1884)] (by intro l hl; fin_cases hl <;> rfl)
  have h2 := c8_notify_in_order [⟨0, false⟩, ⟨1, false⟩] ([] : Changes)
    (by intro l hl; fin_cases hl <;> rfl)
  exact ⟨(h1.2 (by simp)).trans rfl, h2.1 rfl⟩

/-- A raising listener is itself invoked, every earlier (non-raising)
listener is invoked in order before it, no later listener is invoked, and
the exception escapes the notification loop. -/
lemma runListeners_raise (pre : List Listener) (bad : Listener)
    (post : List Listener) (ch : Changes)
    (hpre : ∀ l ∈ pre, l.raises = false) (hbad : bad.raises = true) :
    runListeners (pre ++ bad :: post) ch
      = (pre.map (fun l => (l.id, ch)) ++ [(bad.id, ch)], true) := by
  induction pre with
  | nil => simp [runListeners, hbad]
  | cons l rest ih =>
    have hl : l.raises = false := hpre l (by simp)
    have hr : ∀ x ∈ rest, x.raises = false := fun x hx => hpre x (by simp [hx])
    simp [runListeners, hl, ih hr]

/-- C9: when a reload produced a non-empty Change Record and some
registered listener raises during notification, the listeners registered
before it are invoked in order, the raising listener is invoked, every
listener registered after it is skipped for that record, and the
exception is swallowed by the watch loop's bare `except Exception: pass`,
so the loop keeps running. -/
theorem c9_listener_exception (pre post : List Listener) (bad : Listener)
    (src : ReloadSrc) (st st1 : ConfigState) (changes : Changes)
    (hrel : reload_config src st = (st1, .ok changes)) (hne : changes ≠ [])
    (hpre : ∀ l ∈ pre, l.raises = false) (hbad : bad.raises = true) :
    (watchTick (pre ++ bad :: post) src st).invoked
        = pre.map (fun l => (l.id, changes)) ++ [(bad.id, changes)] ∧
      (watchTick (pre ++ bad :: post) src st).loopContinues = true := by
  unfold watchTick
  rw [hrel]
  rcases changes with _ | ⟨c, cs⟩
  · exact absurd rfl hne
  · simp [notify_changes, runListeners_raise _ _ _ _ hpre hbad]

/-- Witness for C9: listener 1 raises on a real port change; listeners 0
and 1 are invoked, listener 2 is skipped, the loop continues. -/
theorem c9_listener_exception_witness :
    (watchTick [⟨0, false⟩, ⟨1, true⟩, ⟨2, false⟩]
        (.parsed (.vmap [("mqtt", .vmap [("port", .vint 1884)])]))
        configInit).invoked
      = [(0, [("port", .vint 1883, .vint 1884)]),
          (1, [("port", .vint 1883, .vint 1884)])] ∧
      (watchTick [⟨0, false⟩, ⟨1, true⟩, ⟨2, false⟩]
        (.parsed (.vmap [("mqtt", .vmap [("port", .vint 1884)])]))
        configInit).loopContinues = true := by
  have h := c9_listener_exception [⟨0, false⟩] [⟨2, false⟩] ⟨1, true⟩
    (.parsed (.vmap [("mqtt", .vmap [("port", .vint 1884)])])) configInit
    ((reload_config
      (.parsed (.vmap [("mqtt", .vmap [("port", .vint 1884)])]))
      configInit).1)
    [("port", .vint 1883, .vint 1884)] rfl (by simp)
    (by intro l hl; fin_cases hl; rfl) rfl
  exact ⟨h.1.trans rfl, h.2⟩

/-- C10 counterexample: `_merge_dataclass` guards with `hasattr`, which is
true for class attributes that are not dataclass fields.  A well-formed
source whose `mqtt` section carries the key `__doc__` — not a field of
`MqttConfig` — is not ignored: the reload returns a Change Record entry
recording the class docstring as the old value (and `setattr` shadows the
attribute on the instance). -/
theorem c10_counterexample :
    (reload_config
        (.parsed (.vmap [("mqtt", .vmap [("__doc__", .vstr "evil")])]))
        configInit).2
      = .ok [("__doc__", .vstr "MQTT broker connection configuration.",
          .vstr "evil")] := rfl

/-- C10 amended: a key of the merged section that is not a Python
attribute of the record at all (neither a dataclass field nor an
inherited class attribute) is silently ignored — no Change Record entry,
no error, and the record is left completely unchanged.  Keys naming
non-field attributes (such as `__doc__` or the dataclass-generated
methods) pass the `hasattr` test and are merged like fields. -/
theorem c10_unknown_keys_amended (obj : PyObj)
    (data : List (String × PyVal))
    (h : ∀ kv ∈ data, obj.lookupAttr kv.1 = none) :
    merge_dataclass obj data = (obj, []) := by
  induction data with
  | nil => rfl
  | cons kv rest ih =>
    have hk : obj.lookupAttr kv.1 = none := h kv (by simp)
    have hr : ∀ x ∈ rest, obj.lookupAttr x.1 = none :=
      fun x hx => h x (by simp [hx])
    simpa [merge_dataclass, hk] using ih hr

/-- Witness for the amended C10: two keys that are not attributes of
`MqttConfig` are both ignored. -/
theorem c10_unknown_keys_amended_witness :
    merge_dataclass mqttConfigInit
        [("nosuch", .vstr "x"), ("hosts", .vint 1)]
      = (mqttConfigInit, []) :=
  c10_unknown_keys_amended _ _ (by intro kv hkv; fin_cases hkv <;> rfl)

end DeviceAgent
